import Mathlib

/-!
# Verification of the hurl CLI configuration resolver and the hurlfmt pipeline

Shallow embedding of `packages/hurl/src/cli/options.rs` and
`packages/hurlfmt/src/main.rs`.  Filesystem, TTY and environment interactions
are represented by explicit `World` records of pure functions; machine strings
are Lean `String`s, machine integers are `Nat`/`Int` with explicit bounds where
Rust's fixed-width parsing matters.
-/

set_option autoImplicit false

/-- Mirror of `cli::CliError` (a single human-readable message). -/
structure CliError where
  message : String
deriving DecidableEq, Repr

/-- Mirror of `runner::Value` as far as the CLI layer uses it: the spec
describes it as a tagged union of boolean, number, string and null. -/
inductive Value where
  | vbool (b : Bool)
  | vnum (n : Int)
  | vstr (s : String)
  | vnull
deriving DecidableEq, Repr

/-- The variable mapping built by `variables`: models `HashMap<String, Value>`
by its lookup function; `insert` overwrites the binding of a name. -/
def VarMap : Type := String → Option Value

/-- The empty map (`HashMap::new()`). -/
def VarMap.empty : VarMap := fun _ => none

/-- Mirror of `HashMap::insert`: the new binding shadows any previous one. -/
def VarMap.update (m : VarMap) (n : String) (v : Value) : VarMap :=
  fun k => if k = n then some v else m k

/-- One step of ASCII-decimal accumulation for Rust's integer `from_str`. -/
def digitVal (c : Char) : Nat := c.toNat - 48

/-- Parse a list of characters as one or more ASCII digits. -/
def parseDigits : List Char → Option Nat
  | [] => none
  | cs =>
    if cs.all (fun c => c.isDigit) then
      some (cs.foldl (fun a c => a * 10 + digitVal c) 0)
    else none

/-- Rust `str::parse::<usize>` / `::<u64>` on a 64-bit target: optional
leading `+`, then ASCII digits, rejecting values that overflow 64 bits. -/
def parseRustNat (s : String) : Option Nat :=
  let cs := match s.data with
    | '+' :: rest => rest
    | cs => cs
  match parseDigits cs with
  | none => none
  | some n => if n < 2 ^ 64 then some n else none

/-- Rust `str::parse::<i64>`: optional sign then digits, 64-bit bounds. -/
def parseRustInt (s : String) : Option Int :=
  match s.data with
  | '-' :: rest =>
    match parseDigits rest with
    | none => none
    | some n => if n ≤ 2 ^ 63 then some (-(n : Int)) else none
  | '+' :: rest =>
    match parseDigits rest with
    | none => none
    | some n => if n < 2 ^ 63 then some (n : Int) else none
  | cs =>
    match parseDigits cs with
    | none => none
    | some n => if n < 2 ^ 63 then some (n : Int) else none

/-- Rust `str::trim` restricted to the ASCII whitespace the claims exercise. -/
def isWsChar (c : Char) : Bool :=
  c = ' ' || c = '\t' || c = '\n' || c = '\r'

/-- Character-list version of `str::trim`. -/
def trimChars (cs : List Char) : List Char :=
  ((cs.dropWhile isWsChar).reverse.dropWhile isWsChar).reverse

/-- Mirror of Rust `line.trim()`. -/
def rustTrim (s : String) : String := ⟨trimChars s.data⟩

/-- Mirror of Rust `line.starts_with('#')`. -/
def startsWithHash (s : String) : Bool :=
  match s.data with
  | c :: _ => c = '#'
  | [] => false

/-- Mirror of Rust `line.is_empty()`. -/
def strIsEmpty (s : String) : Bool := s.data.isEmpty

/-- Remainder of `cs` after removing the first list as a leading segment. -/
def dropLeading : List Char → List Char → Option (List Char)
  | [], cs => some cs
  | _ :: _, [] => none
  | p :: ps, c :: cs => if c = p then dropLeading ps cs else none

/-- Mirror of `env_name.strip_prefix("HURL_")`. -/
def stripHurl (n : String) : Option String :=
  (dropLeading "HURL_".data n.data).map (fun cs => ⟨cs⟩)

/-- Split a character list at the first `=`, returning the parts before and
after it. -/
def splitAtEq : List Char → Option (List Char × List Char)
  | [] => none
  | '=' :: rest => some ([], rest)
  | c :: rest => (splitAtEq rest).map (fun p => (c :: p.1, p.2))

/-- Modelled from the spec: `cli::parse_variable_value` (not under `src/`),
the shared value-parsing collaborator turning a textual token into a tagged
boolean / number / string / null value. -/
def parse_variable_value (s : String) : Except CliError Value :=
  if s = "true" then .ok (.vbool true)
  else if s = "false" then .ok (.vbool false)
  else if s = "null" then .ok .vnull
  else
    match parseRustInt s with
    | some n => .ok (.vnum n)
    | none => .ok (.vstr s)

/-- Modelled from the spec: `cli::parse_variable` (not under `src/`), parsing
one `name=value` assignment.  It receives only the assignment text (never the
source path or a line number), and a token without `=` is a parse failure. -/
def parse_variable (s : String) : Except CliError (String × Value) :=
  match splitAtEq s.data with
  | none => .error ⟨"Missing variable value for " ++ s ++ "!"⟩
  | some (n, v) =>
    match parse_variable_value ⟨v⟩ with
    | .error e => .error e
    | .ok value => .ok (⟨n⟩, value)

/-- One item of `BufReader::lines()`: either a line read successfully or an
I/O / encoding failure for that line. -/
inductive LineRead where
  | lineOk (s : String)
  | lineReadErr
deriving DecidableEq, Repr

/-- One item yielded by iterating `glob::glob(expr)`: a readable path (already
converted to a `String`), a path whose name is not valid UTF-8, or an
unreadable entry. -/
inductive GlobEntry where
  | entryPath (s : String)
  | entryNonUtf8
  | entryErr
deriving DecidableEq, Repr

/-- The ambient capabilities `parse_options` consults: filesystem predicates,
TTY detection, the process environment, variables-file contents and the
filesystem's answer to a glob pattern (`none` models an invalid pattern). -/
structure World where
  isFile : String → Bool
  pathExists : String → Bool
  isDir : String → Bool
  parentExists : String → Bool
  stdoutTty : Bool
  envVars : List (String × String)
  fileLines : String → List LineRead
  globFn : String → Option (List GlobEntry)

/-- Modelled from the spec: `std::fs::create_dir` creates exactly one
directory level and fails when the parent path is missing. -/
def create_dir (w : World) (p : String) : Bool := w.parentExists p

/-- Mirror of the `ArgMatches` consulted by `parse_options`: flag presence as
`Bool`, valued options as `Option String`, repeatable options as lists in the
order supplied. -/
structure Matches where
  cacert_file : Option String
  color : Bool
  no_color : Bool
  compressed : Bool
  connect_timeout : Option String
  cookies_input_file : Option String
  cookies_output_file : Option String
  fail_at_end : Bool
  file_root : Option String
  follow_location : Bool
  glob : List String
  report_html : Option String
  ignore_asserts : Bool
  include_ : Bool
  insecure : Bool
  interactive : Bool
  json : Bool
  max_redirects : Option String
  max_time : Option String
  no_output : Bool
  noproxy : Option String
  output : Option String
  progress : Bool
  proxy : Option String
  junit : Option String
  summary : Bool
  test : Bool
  to_entry_opt : Option String
  user : Option String
  user_agent : Option String
  variable_ : List String
  variables_file : Option String
  verbose : Bool

/-- Mirror of `OutputType`. -/
inductive OutputType where
  | ResponseBody
  | Json
  | NoOutput
deriving DecidableEq, Repr

/-- Mirror of `CliOptions` (durations as second counts, `PathBuf` as
`String`). -/
structure CliOptions where
  cacert_file : Option String
  color : Bool
  compressed : Bool
  connect_timeout : Nat
  cookie_input_file : Option String
  cookie_output_file : Option String
  fail_fast : Bool
  file_root : Option String
  follow_location : Bool
  glob_files : List String
  html_dir : Option String
  ignore_asserts : Bool
  include_ : Bool
  insecure : Bool
  interactive : Bool
  junit_file : Option String
  max_redirect : Option Nat
  no_proxy : Option String
  output : Option String
  output_type : OutputType
  progress : Bool
  proxy : Option String
  summary : Bool
  timeout : Nat
  to_entry : Option Nat
  user : Option String
  user_agent : Option String
  variables_ : VarMap
  verbose : Bool

/-- Modelled from the spec: `ClientOptions::default().connect_timeout` (not
under `src/`), the documented built-in default, as a second count. -/
def default_connect_timeout : Nat := 300

/-- Modelled from the spec: `ClientOptions::default().timeout` (not under
`src/`), the documented built-in default, as a second count. -/
def default_timeout : Nat := 300

/-- Mirror of `output_color`. -/
def output_color (w : World) (m : Matches) : Bool :=
  if m.color then true
  else if m.no_color then false
  else w.stdoutTty

/-- The environment pass of `variables`: every environment entry whose name
starts with `HURL_` is parsed and inserted (prefix stripped). -/
def envPhase (pvv : String → Except CliError Value) :
    List (String × String) → VarMap → Except CliError VarMap
  | [], m => .ok m
  | (n, v) :: rest, m =>
    match stripHurl n with
    | none => envPhase pvv rest m
    | some name =>
      match pvv v with
      | .error e => .error e
      | .ok value => envPhase pvv rest (m.update name value)

/-- The variables-file pass of `variables`: lines are enumerated from 0; a
line that fails to read aborts with an error naming the 1-based line number
and the path; after trimming, `#`-lines and blank lines are skipped; other
lines are handed to the variable parser and inserted. -/
def filePhase (pv : String → Except CliError (String × Value)) (path : String) :
    List LineRead → Nat → VarMap → Except CliError VarMap
  | [], _, m => .ok m
  | .lineReadErr :: _, index, _ =>
    .error ⟨"Can not parse line " ++ toString (index + 1) ++ " of " ++ path⟩
  | .lineOk s :: rest, index, m =>
    let line := rustTrim s
    if startsWithHash line || strIsEmpty line then
      filePhase pv path rest (index + 1) m
    else
      match pv line with
      | .error e => .error e
      | .ok p => filePhase pv path rest (index + 1) (m.update p.1 p.2)

/-- The inline `--variable` pass of `variables`, left to right. -/
def inlinePhase (pv : String → Except CliError (String × Value)) :
    List String → VarMap → Except CliError VarMap
  | [], m => .ok m
  | s :: rest, m =>
    match pv s with
    | .error e => .error e
    | .ok p => inlinePhase pv rest (m.update p.1 p.2)

/-- Mirror of `variables`: environment entries first, then the variables file
(if given; it must exist), then inline assignments, all inserted into one
map. `pv` and `pvv` are the crate's `parse_variable` and
`parse_variable_value` collaborators. -/
def hurl_variables (pv : String → Except CliError (String × Value))
    (pvv : String → Except CliError Value) (w : World) (m : Matches) :
    Except CliError VarMap :=
  match envPhase pvv w.envVars VarMap.empty with
  | .error e => .error e
  | .ok m0 =>
    match
      (match m.variables_file with
       | none => .ok m0
       | some filename =>
         if w.pathExists filename then
           filePhase pv filename (w.fileLines filename) 0 m0
         else
           .error ⟨"Properties file " ++ filename ++ " does not exist"⟩ :
        Except CliError VarMap) with
    | .error e => .error e
    | .ok m1 => inlinePhase pv m.variable_ m1

/-- Conversion of one glob iterator item to a filename, mirroring the entry
match inside `match_glob_files`. -/
def entriesToNames : List GlobEntry → Except CliError (List String)
  | [] => .ok []
  | .entryErr :: _ => .error ⟨"Failed to read glob pattern"⟩
  | .entryNonUtf8 :: _ => .error ⟨"Failed to read glob pattern"⟩
  | .entryPath s :: rest =>
    match entriesToNames rest with
    | .error e => .error e
    | .ok names => .ok (s :: names)

/-- The pattern loop of `match_glob_files`: patterns in the order supplied,
each pattern's matches appended in filesystem enumeration order. -/
def globFiles (w : World) : List String → Except CliError (List String)
  | [] => .ok []
  | expr :: rest =>
    match w.globFn expr with
    | none => .error ⟨"Failed to read glob pattern"⟩
    | some entries =>
      match entriesToNames entries with
      | .error e => .error e
      | .ok names =>
        match globFiles w rest with
        | .error e => .error e
        | .ok more => .ok (names ++ more)

/-- Mirror of `match_glob_files`. -/
def match_glob_files (w : World) (m : Matches) : Except CliError (List String) :=
  globFiles w m.glob

/-- Mirror of the `report_html` block of `parse_options`, instrumented with
the list of paths on which a `create_dir` attempt is made. -/
def html_dir_resolve (w : World) :
    Option String → Except CliError (Option String) × List String
  | none => (.ok none, [])
  | some dir =>
    if !w.pathExists dir then
      if create_dir w dir then (.ok (some dir), [dir])
      else (.error ⟨"Html dir " ++ dir ++ " can not be created"⟩, [dir])
    else if w.isDir dir then (.ok (some dir), [])
    else (.error ⟨dir ++ " is not a valid directory"⟩, [])

/-- Mirror of the `cacert_file` block of `parse_options`. -/
def cacertStep (w : World) (m : Matches) : Except CliError (Option String) :=
  match m.cacert_file with
  | none => .ok none
  | some filename =>
    if !w.isFile filename then
      .error ⟨"File " ++ filename ++ " does not exist"⟩
    else .ok (some filename)

/-- Mirror of the `connect_timeout` block of `parse_options`. -/
def connectTimeoutStep (v : Option String) : Except CliError Nat :=
  match v with
  | none => .ok default_connect_timeout
  | some s =>
    match parseRustNat s with
    | some n => .ok n
    | none => .error ⟨"connect-timeout option can not be parsed"⟩

/-- Mirror of the `max_redirect` block of `parse_options`. -/
def maxRedirectStep (m : Matches) : Except CliError (Option Nat) :=
  match m.max_redirects with
  | none => .ok (some 50)
  | some s =>
    if s = "-1" then .ok none
    else
      match parseRustNat s with
      | some x => .ok (some x)
      | none => .error ⟨"max_redirs option can not be parsed"⟩

/-- Mirror of the `timeout` block of `parse_options`. -/
def timeoutStep (v : Option String) : Except CliError Nat :=
  match v with
  | none => .ok default_timeout
  | some s =>
    match parseRustNat s with
    | some n => .ok n
    | none => .error ⟨"max_time option can not be parsed"⟩

/-- Mirror of `to_entry`. -/
def to_entry_step (m : Matches) : Except CliError (Option Nat) :=
  match m.to_entry_opt with
  | some value =>
    match parseRustNat value with
    | some v => .ok (some v)
    | none =>
      .error ⟨"Invalid value for option --to-entry - must be a positive integer!"⟩
  | none => .ok none

/-- Mirror of `parse_options`, sequencing the blocks in source order and
aborting at the first error. -/
def parse_options (pv : String → Except CliError (String × Value))
    (pvv : String → Except CliError Value) (w : World) (m : Matches) :
    Except CliError CliOptions :=
  match cacertStep w m with
  | .error e => .error e
  | .ok cacert_file =>
    match connectTimeoutStep m.connect_timeout with
    | .error e => .error e
    | .ok connect_timeout =>
      match match_glob_files w m with
      | .error e => .error e
      | .ok glob_files =>
        match (html_dir_resolve w m.report_html).1 with
        | .error e => .error e
        | .ok html_dir =>
          match maxRedirectStep m with
          | .error e => .error e
          | .ok max_redirect =>
            match timeoutStep m.max_time with
            | .error e => .error e
            | .ok timeout =>
              match to_entry_step m with
              | .error e => .error e
              | .ok to_entry =>
                match hurl_variables pv pvv w m with
                | .error e => .error e
                | .ok vars =>
                  .ok
                    { cacert_file := cacert_file
                      color := output_color w m
                      compressed := m.compressed
                      connect_timeout := connect_timeout
                      cookie_input_file := m.cookies_input_file
                      cookie_output_file := m.cookies_output_file
                      fail_fast := !m.fail_at_end
                      file_root := m.file_root
                      follow_location := m.follow_location
                      glob_files := glob_files
                      html_dir := html_dir
                      ignore_asserts := m.ignore_asserts
                      include_ := m.include_
                      insecure := m.insecure
                      interactive := m.interactive
                      junit_file := m.junit
                      max_redirect := max_redirect
                      no_proxy := m.proxy
                      output := m.output
                      output_type :=
                        if m.json then OutputType.Json
                        else if m.no_output || m.test then OutputType.NoOutput
                        else OutputType.ResponseBody
                      progress := m.progress || m.test
                      proxy := m.proxy
                      summary := m.summary || m.test
                      timeout := timeout
                      to_entry := to_entry
                      user := m.user
                      user_agent := m.user_agent
                      variables_ := vars
                      verbose := m.verbose || m.interactive }

/-- The persistent side effects performed by one `parse_options` call: the
only `create_dir` site is the `report_html` block, reached after the cacert,
connect-timeout and glob steps, so the effect list is that block's trace. -/
def parse_options_effects (w : World) (m : Matches) : List String :=
  match cacertStep w m with
  | .error _ => []
  | .ok _ =>
    match connectTimeoutStep m.connect_timeout with
    | .error _ => []
    | .ok _ =>
      match match_glob_files w m with
      | .error _ => []
      | .ok _ => (html_dir_resolve w m.report_html).2

/-- Mirror of the hurlfmt `ArgMatches`. -/
structure FmtMatches where
  input : Option String
  check : Bool
  color : Bool
  format : Option String
  in_place : Bool
  no_color : Bool
  no_format : Bool
  output : Option String
  standalone : Bool

/-- The collaborators and ambient capabilities of the hurlfmt `main`:
TTY detection, the filesystem, the external DSL parser, the linter and the
renderers, parameterized by the type `HF` of parsed hurl files. -/
structure FmtWorld (HF : Type) where
  stdinTty : Bool
  stdoutTty : Bool
  fileExists : String → Bool
  readStdin : Except String String
  readFile : String → Except String String
  parseHurl : String → Except String HF
  lintErrors : HF → List String
  lintFix : HF → HF
  fmtText : HF → Bool → String
  fmtJson : HF → String
  fmtHtml : HF → Bool → String
  fmtAst : HF → String

/-- Observable outcome of one hurlfmt invocation: the exit code, whether the
input contents were read, the lint diagnostics logged, and the bytes written
with their destination (`none` = stdout). -/
structure FmtOutcome where
  exit : Nat
  readInput : Bool
  linted : List String
  written : Option (String × Option String)
deriving DecidableEq, Repr

/-- Mirror of the `filename` resolution in hurlfmt `main`. -/
def filenameOf (m : FmtMatches) : String :=
  match m.input with
  | none => "-"
  | some "-" => "-"
  | some v => v

/-- Mirror of the hurlfmt `main` body after argument parsing: the linear
`AcquireInput → Parse → (CheckMode | FormatMode) → WriteOutput` pipeline with
every `process::exit` surfaced as an outcome. -/
def fmt_run {HF : Type} (w : FmtWorld HF) (m : FmtMatches) : FmtOutcome :=
  if m.standalone && !(m.format == some "html") then
    ⟨1, false, [], none⟩
  else
    let out_color := if m.color then true
      else if m.no_color || m.in_place then false
      else w.stdoutTty
    let filename := filenameOf m
    if filename == "-" && w.stdinTty then ⟨1, false, [], none⟩
    else if filename != "-" && !(w.fileExists filename) then ⟨1, false, [], none⟩
    else if m.in_place && (filename == "-") then ⟨1, false, [], none⟩
    else if m.in_place && !((m.format.getD "text") == "text") then ⟨1, false, [], none⟩
    else
      match (if filename == "-" then w.readStdin else w.readFile filename) with
      | .error _ => ⟨2, true, [], none⟩
      | .ok contents =>
        let output_file := if m.in_place then some filename else m.output
        match w.parseHurl contents with
        | .error _ => ⟨2, true, [], none⟩
        | .ok hurl_file =>
          if m.check then ⟨1, true, w.lintErrors hurl_file, none⟩
          else
            match m.format.getD "text" with
            | "text" =>
              let hf := if m.no_format then hurl_file else w.lintFix hurl_file
              ⟨0, true, [], some (w.fmtText hf out_color, output_file)⟩
            | "json" => ⟨0, true, [], some (w.fmtJson hurl_file, output_file)⟩
            | "html" =>
              ⟨0, true, [], some (w.fmtHtml hurl_file m.standalone, output_file)⟩
            | "ast" => ⟨0, true, [], some (w.fmtAst hurl_file, output_file)⟩
            | _ => ⟨1, true, [], none⟩

/-- Specification-side view of the environment pass: the list of
(prefix-stripped, parsed) bindings, `none` when some entry fails to parse. -/
def envPairs (pvv : String → Except CliError Value) :
    List (String × String) → Option (List (String × Value))
  | [] => some []
  | (n, v) :: rest =>
    match stripHurl n with
    | none => envPairs pvv rest
    | some name =>
      match pvv v with
      | .error _ => none
      | .ok value => (envPairs pvv rest).map (fun ps => (name, value) :: ps)

/-- Specification-side view of the variables-file pass: the bindings of the
non-skipped lines in file order, `none` on any read or parse failure. -/
def filePairs (pv : String → Except CliError (String × Value)) :
    List LineRead → Option (List (String × Value))
  | [] => some []
  | .lineReadErr :: _ => none
  | .lineOk s :: rest =>
    let line := rustTrim s
    if startsWithHash line || strIsEmpty line then filePairs pv rest
    else
      match pv line with
      | .error _ => none
      | .ok p => (filePairs pv rest).map (fun ps => p :: ps)

/-- The file pass bindings as seen from `hurl_variables`: empty when no file
is given, `none` when the file is missing or a line fails. -/
def filePairsOf (pv : String → Except CliError (String × Value))
    (w : World) (m : Matches) : Option (List (String × Value)) :=
  match m.variables_file with
  | none => some []
  | some f => if w.pathExists f then filePairs pv (w.fileLines f) else none

/-- Specification-side view of the inline pass. -/
def inlinePairs (pv : String → Except CliError (String × Value)) :
    List String → Option (List (String × Value))
  | [] => some []
  | s :: rest =>
    match pv s with
    | .error _ => none
    | .ok p => (inlinePairs pv rest).map (fun ps => p :: ps)

/-- Insert a list of bindings into a map, in order. -/
def applyAll : List (String × Value) → VarMap → VarMap
  | [], m => m
  | p :: ps, m => applyAll ps (m.update p.1 p.2)

/-- The value of the last binding of `k` in a list of bindings: a later
binding overwrites an earlier one. -/
def lastOf : List (String × Value) → String → Option Value
  | [], _ => none
  | p :: ps, k =>
    (lastOf ps k).orElse (fun _ => if p.1 = k then some p.2 else none)

/-- A `Matches` with every flag absent. -/
def baseMatches : Matches where
  cacert_file := none
  color := false
  no_color := false
  compressed := false
  connect_timeout := none
  cookies_input_file := none
  cookies_output_file := none
  fail_at_end := false
  file_root := none
  follow_location := false
  glob := []
  report_html := none
  ignore_asserts := false
  include_ := false
  insecure := false
  interactive := false
  json := false
  max_redirects := none
  max_time := none
  no_output := false
  noproxy := none
  output := none
  progress := false
  proxy := none
  junit := none
  summary := false
  test := false
  to_entry_opt := none
  user := none
  user_agent := none
  variable_ := []
  variables_file := none
  verbose := false

/-- A small world: every path is a regular file, nothing exists yet, parent
paths exist, stdout is not a TTY, the environment is empty, and every glob
pattern is valid with no matches. -/
def exWorld : World where
  isFile := fun _ => true
  pathExists := fun _ => false
  isDir := fun _ => false
  parentExists := fun _ => true
  stdoutTty := false
  envVars := []
  fileLines := fun _ => []
  globFn := fun _ => some []

/-- A concrete invocation exercising test mode, interactive mode,
`--max-redirs 7`, `--to-entry 0`, a proxy and a `--noproxy` value. -/
def exMatches : Matches :=
  { baseMatches with
      test := true,
      interactive := true,
      max_redirects := some "7",
      to_entry_opt := some "0",
      proxy := some "proxy.example",
      noproxy := some "nohost" }

/-- The resolved configuration of `exMatches` in `exWorld`. -/
def exOpts : CliOptions where
  cacert_file := none
  color := false
  compressed := false
  connect_timeout := 300
  cookie_input_file := none
  cookie_output_file := none
  fail_fast := true
  file_root := none
  follow_location := false
  glob_files := []
  html_dir := none
  ignore_asserts := false
  include_ := false
  insecure := false
  interactive := true
  junit_file := none
  max_redirect := some 7
  no_proxy := some "proxy.example"
  output := none
  output_type := OutputType.NoOutput
  progress := true
  proxy := some "proxy.example"
  summary := true
  timeout := 300
  to_entry := some 0
  user := none
  user_agent := none
  variables_ := VarMap.empty
  verbose := true

/-- A world with one `HURL_`-prefixed environment entry and a variables file
whose lines exercise comments, blank lines and two assignments. -/
def exVarsWorld : World :=
  { exWorld with
      envVars := [("HURL_a", "1"), ("other", "x")],
      pathExists := fun _ => true,
      fileLines := fun _ =>
        [.lineOk "# comment", .lineOk "", .lineOk "a=2", .lineOk "b=4"] }

/-- An invocation with a variables file and one inline assignment. -/
def exVarsMatches : Matches :=
  { baseMatches with
      variables_file := some "vars.txt",
      variable_ := ["a=3"] }

/-- A world whose variables file contains one line with no `=` sign. -/
def c6World : World :=
  { exWorld with
      pathExists := fun _ => true,
      fileLines := fun _ => [.lineOk "noeq"] }

/-- The same world with the variables file missing. -/
def c6MissingWorld : World :=
  { c6World with pathExists := fun _ => false }

/-- An invocation naming a variables file. -/
def c6Matches : Matches :=
  { baseMatches with variables_file := some "vars.txt" }

/-- A world where the report path is missing and so is its parent. -/
def c8WorldMissingParent : World :=
  { exWorld with parentExists := fun _ => false }

/-- A world where the report path exists and is a directory. -/
def c8WorldExistingDir : World :=
  { exWorld with pathExists := fun _ => true, isDir := fun _ => true }

/-- A world where the report path exists and is not a directory. -/
def c8WorldExistingFile : World :=
  { exWorld with pathExists := fun _ => true, isDir := fun _ => false }

/-- A concrete formatter world over trivial hurl files: a non-TTY stdin,
every file exists and reads successfully, parsing succeeds and the linter
finds nothing. -/
def fmtWorldEx : FmtWorld Unit where
  stdinTty := false
  stdoutTty := false
  fileExists := fun _ => true
  readStdin := .ok ""
  readFile := fun _ => .ok "GET http://x"
  parseHurl := fun _ => .ok ()
  lintErrors := fun _ => []
  lintFix := id
  fmtText := fun _ _ => ""
  fmtJson := fun _ => ""
  fmtHtml := fun _ _ => ""
  fmtAst := fun _ => ""

/-- A `--check` run on a named input file. -/
def fmtMatchesCheck : FmtMatches where
  input := some "test.hurl"
  check := true
  color := false
  format := none
  in_place := false
  no_color := false
  no_format := false
  output := none
  standalone := false

/-- An `--in-place` run reading standard input. -/
def fmtMatchesInPlace : FmtMatches :=
  { fmtMatchesCheck with check := false, in_place := true, input := none }

theorem applyAll_lookup (ps : List (String × Value)) (m0 : VarMap) (k : String) :
    applyAll ps m0 k = (lastOf ps k).orElse (fun _ => m0 k) := by
  induction ps generalizing m0 with
  | nil => rfl
  | cons p ps ih =>
    show applyAll ps (m0.update p.1 p.2) k = _
    rw [ih]
    cases h : lastOf ps k with
    | some x => simp [lastOf, h, Option.orElse]
    | none =>
      simp only [lastOf, h, Option.orElse, VarMap.update]
      by_cases hk : p.1 = k
      · simp [hk]
      · have hk2 : ¬(k = p.1) := fun hkk => hk hkk.symm
        simp [hk, hk2]

theorem envPhase_ok (pvv : String → Except CliError Value)
    (l : List (String × String)) (ps : List (String × Value))
    (h : envPairs pvv l = some ps) (m0 : VarMap) :
    envPhase pvv l m0 = .ok (applyAll ps m0) := by
  induction l generalizing ps m0 with
  | nil =>
    simp only [envPairs, Option.some.injEq] at h
    subst h; rfl
  | cons nv rest ih =>
    obtain ⟨n, v⟩ := nv
    simp only [envPairs] at h
    split at h
    · next heq =>
      simp only [envPhase, heq]
      exact ih _ h m0
    · next name heq =>
      split at h
      · exact absurd h (by simp)
      · next value hv =>
        rcases Option.map_eq_some'.mp h with ⟨ps', hps', hcons⟩
        subst hcons
        simp only [envPhase, heq, hv]
        exact ih _ hps' _

theorem filePhase_ok (pv : String → Except CliError (String × Value))
    (path : String) (l : List LineRead) (ps : List (String × Value))
    (h : filePairs pv l = some ps) :
    ∀ (i : Nat) (m0 : VarMap),
      filePhase pv path l i m0 = .ok (applyAll ps m0) := by
  induction l generalizing ps with
  | nil =>
    simp only [filePairs, Option.some.injEq] at h
    subst h; intro i m0; rfl
  | cons lr rest ih =>
    cases lr with
    | lineReadErr => simp [filePairs] at h
    | lineOk s =>
      simp only [filePairs] at h
      split at h
      · next hskip =>
        intro i m0
        simp only [filePhase, hskip]
        exact ih _ h _ _
      · next hskip =>
        split at h
        · exact absurd h (by simp)
        · next p hp =>
          rcases Option.map_eq_some'.mp h with ⟨ps', hps', hcons⟩
          subst hcons
          intro i m0
          simp only [filePhase, hskip, hp]
          exact ih _ hps' _ _

theorem inlinePhase_ok (pv : String → Except CliError (String × Value))
    (l : List String) (ps : List (String × Value))
    (h : inlinePairs pv l = some ps) (m0 : VarMap) :
    inlinePhase pv l m0 = .ok (applyAll ps m0) := by
  induction l generalizing ps m0 with
  | nil =>
    simp only [inlinePairs, Option.some.injEq] at h
    subst h; rfl
  | cons s rest ih =>
    simp only [inlinePairs] at h
    split at h
    · exact absurd h (by simp)
    · next p hp =>
      rcases Option.map_eq_some'.mp h with ⟨ps', hps', hcons⟩
      subst hcons
      simp only [inlinePhase, hp]
      exact ih _ hps' _

/-- C1: for every combination of `HURL_`-prefixed environment entries,
variables-file entries and inline `--variable` assignments, the merged
mapping binds a name to its inline value when any inline assignment for it
is present, else to its file value when any file entry for it is present,
else to its environment value; within each source, later assignments of a
name overwrite earlier ones (captured by `lastOf`). -/
theorem c1_variable_merge_precedence
    (pv : String → Except CliError (String × Value))
    (pvv : String → Except CliError Value) (w : World) (m : Matches)
    (eps fps ips : List (String × Value))
    (henv : envPairs pvv w.envVars = some eps)
    (hfile : filePairsOf pv w m = some fps)
    (hinl : inlinePairs pv m.variable_ = some ips) :
    ∃ vm, hurl_variables pv pvv w m = .ok vm ∧
      ∀ name, vm name =
        (lastOf ips name).orElse (fun _ =>
          (lastOf fps name).orElse (fun _ => lastOf eps name)) := by
  refine ⟨applyAll ips (applyAll fps (applyAll eps VarMap.empty)), ?_, ?_⟩
  · simp only [hurl_variables, envPhase_ok pvv _ _ henv]
    cases hvf : m.variables_file with
    | none =>
      simp only [filePairsOf, hvf, Option.some.injEq] at hfile
      subst hfile
      simp only [hvf]
      simpa using inlinePhase_ok pv _ _ hinl _
    | some f =>
      simp only [filePairsOf, hvf] at hfile
      split at hfile
      · next hex =>
        simp only [hvf, hex, if_true,
          filePhase_ok pv f _ _ hfile 0 (applyAll eps VarMap.empty)]
        exact inlinePhase_ok pv _ _ hinl _
      · exact absurd hfile (by simp)
  · intro name
    rw [applyAll_lookup, applyAll_lookup, applyAll_lookup]
    cases lastOf ips name with
    | some x => rfl
    | none =>
      cases lastOf fps name with
      | some x => rfl
      | none =>
        cases lastOf eps name with
        | some x => rfl
        | none => rfl

theorem maxRedirectStep_ok (m : Matches) (x : Option Nat)
    (h : maxRedirectStep m = .ok x) :
    x = (match m.max_redirects with
         | none => some 50
         | some s => if s = "-1" then none else parseRustNat s) := by
  unfold maxRedirectStep at h
  split at h
  · next hmr =>
    injection h with h
    exact h.symm
  · next s hmr =>
    split at h
    · next hs =>
      rw [if_pos hs]
      injection h with h
      exact h.symm
    · next hs =>
      rw [if_neg hs]
      split at h
      · next x2 hp =>
        rw [hp]
        injection h with h
        exact h.symm
      · exact absurd h (by simp)

theorem maxRedirectStep_bad (mm : Matches) (s : String)
    (hmr : mm.max_redirects = some s) (hne : s ≠ "-1")
    (hp : parseRustNat s = none) :
    maxRedirectStep mm = .error ⟨"max_redirs option can not be parsed"⟩ := by
  unfold maxRedirectStep
  simp [hmr, hne, hp]

theorem parse_options_ok_inv
    (pv : String → Except CliError (String × Value))
    (pvv : String → Except CliError Value) (w : World) (m : Matches)
    (opts : CliOptions) (h : parse_options pv pvv w m = .ok opts) :
    ∃ cf ct gf hd mr ti te vars,
      cacertStep w m = .ok cf ∧
      connectTimeoutStep m.connect_timeout = .ok ct ∧
      match_glob_files w m = .ok gf ∧
      (html_dir_resolve w m.report_html).1 = .ok hd ∧
      maxRedirectStep m = .ok mr ∧
      timeoutStep m.max_time = .ok ti ∧
      to_entry_step m = .ok te ∧
      hurl_variables pv pvv w m = .ok vars ∧
      opts =
        { cacert_file := cf
          color := output_color w m
          compressed := m.compressed
          connect_timeout := ct
          cookie_input_file := m.cookies_input_file
          cookie_output_file := m.cookies_output_file
          fail_fast := !m.fail_at_end
          file_root := m.file_root
          follow_location := m.follow_location
          glob_files := gf
          html_dir := hd
          ignore_asserts := m.ignore_asserts
          include_ := m.include_
          insecure := m.insecure
          interactive := m.interactive
          junit_file := m.junit
          max_redirect := mr
          no_proxy := m.proxy
          output := m.output
          output_type :=
            if m.json then OutputType.Json
            else if m.no_output || m.test then OutputType.NoOutput
            else OutputType.ResponseBody
          progress := m.progress || m.test
          proxy := m.proxy
          summary := m.summary || m.test
          timeout := ti
          to_entry := te
          user := m.user
          user_agent := m.user_agent
          variables_ := vars
          verbose := m.verbose || m.interactive } := by
  simp only [parse_options] at h
  split at h
  · exact absurd h (by simp)
  next cf hcf =>
  split at h
  · exact absurd h (by simp)
  next ct hct =>
  split at h
  · exact absurd h (by simp)
  next gf hgf =>
  split at h
  · exact absurd h (by simp)
  next hd hhd =>
  split at h
  · exact absurd h (by simp)
  next mr hmr =>
  split at h
  · exact absurd h (by simp)
  next ti hti =>
  split at h
  · exact absurd h (by simp)
  next te hte =>
  split at h
  · exact absurd h (by simp)
  next vars hvars =>
  injection h with h
  exact ⟨cf, ct, gf, hd, mr, ti, te, vars, hcf, hct, hgf, hhd, hmr, hti, hte,
    hvars, h.symm⟩

/-- C2: in every successful resolution, `max_redirect` is the count 50 when
the `--max-redirs` flag is absent, absent (unlimited) when the value is
exactly `"-1"`, and the parsed integer when the value parses as a
non-negative integer; for any other value string the resolution fails, the
`max_redirs` step producing the validation error. -/
theorem c2_max_redirect_rules
    (pv : String → Except CliError (String × Value))
    (pvv : String → Except CliError Value) (w : World) (m : Matches) :
    (∀ opts, parse_options pv pvv w m = .ok opts →
        opts.max_redirect =
          (match m.max_redirects with
           | none => some 50
           | some s => if s = "-1" then none else parseRustNat s)) ∧
    (∀ s, m.max_redirects = some s → s ≠ "-1" → parseRustNat s = none →
        ∃ e, parse_options pv pvv w m = .error e) ∧
    (∀ (mm : Matches) (s : String), mm.max_redirects = some s → s ≠ "-1" →
        parseRustNat s = none →
        maxRedirectStep mm = .error ⟨"max_redirs option can not be parsed"⟩) := by
  refine ⟨?_, ?_, fun mm s hmr hne hp => maxRedirectStep_bad mm s hmr hne hp⟩
  · intro opts h
    obtain ⟨cf, ct, gf, hd, mr, ti, te, vars, _, _, _, _, hmr, _, _, _, hopts⟩ :=
      parse_options_ok_inv pv pvv w m opts h
    subst hopts
    exact maxRedirectStep_ok m mr hmr
  · intro s hs hne hp
    rcases hpo : parse_options pv pvv w m with e | opts
    · exact ⟨e, rfl⟩
    · obtain ⟨cf, ct, gf, hd, mr, ti, te, vars, _, _, _, _, hmr, _, _, _, _⟩ :=
        parse_options_ok_inv pv pvv w m opts hpo
      rw [maxRedirectStep_bad m s hs hne hp] at hmr
      exact absurd hmr (by simp)

/-- C4: in every successfully resolved `CliOptions`, the `no_proxy` field
holds exactly the `--proxy` flag's value, so `no_proxy` and `proxy` are
always equal; the dedicated `--noproxy` flag's value never reaches the
resolved configuration (resolution is invariant under changing it). -/
theorem c4_no_proxy_coupling
    (pv : String → Except CliError (String × Value))
    (pvv : String → Except CliError Value) (w : World) (m : Matches) :
    (∀ opts, parse_options pv pvv w m = .ok opts →
        opts.no_proxy = m.proxy ∧ opts.proxy = m.proxy ∧
        opts.no_proxy = opts.proxy) ∧
    (∀ x, parse_options pv pvv w { m with noproxy := x } =
        parse_options pv pvv w m) := by
  constructor
  · intro opts h
    obtain ⟨cf, ct, gf, hd, mr, ti, te, vars, _, _, _, _, _, _, _, _, hopts⟩ :=
      parse_options_ok_inv pv pvv w m opts h
    subst hopts
    exact ⟨rfl, rfl, rfl⟩
  · intro x
    rfl

/-- C5: in every successful resolution the output mode is `Json` when the
json flag is present, else `NoOutput` when the no-output or test flag is
present, else `ResponseBody`; the test flag forces `progress` and `summary`
true and the interactive flag forces `verbose` true. -/
theorem c5_output_mode_rules
    (pv : String → Except CliError (String × Value))
    (pvv : String → Except CliError Value) (w : World) (m : Matches) :
    ∀ opts, parse_options pv pvv w m = .ok opts →
      opts.output_type =
        (if m.json then OutputType.Json
         else if m.no_output || m.test then OutputType.NoOutput
         else OutputType.ResponseBody) ∧
      (m.test = true → opts.progress = true ∧ opts.summary = true) ∧
      (m.interactive = true → opts.verbose = true) := by
  intro opts h
  obtain ⟨cf, ct, gf, hd, mr, ti, te, vars, _, _, _, _, _, _, _, _, hopts⟩ :=
    parse_options_ok_inv pv pvv w m opts h
  subst hopts
  refine ⟨rfl, fun ht => ?_, fun hi => ?_⟩
  · constructor <;> simp [ht]
  · simp [hi]

/-- C10: the resolver accepts `--to-entry 0`: the value `"0"` resolves to
the cutoff 0 rather than being rejected; any value parsing as a
non-negative integer resolves to that integer, and only values that do not
parse are rejected with the "must be a positive integer" error. -/
theorem c10_to_entry_zero_accepted
    (pv : String → Except CliError (String × Value))
    (pvv : String → Except CliError Value) (w : World) (m : Matches) :
    (∀ mm : Matches, mm.to_entry_opt = some "0" →
        to_entry_step mm = .ok (some 0)) ∧
    (∀ (mm : Matches) (s : String) (n : Nat), mm.to_entry_opt = some s →
        parseRustNat s = some n → to_entry_step mm = .ok (some n)) ∧
    (∀ (mm : Matches) (s : String), mm.to_entry_opt = some s →
        parseRustNat s = none →
        to_entry_step mm =
          .error ⟨"Invalid value for option --to-entry - must be a positive integer!"⟩) ∧
    (∀ opts, parse_options pv pvv w m = .ok opts → m.to_entry_opt = some "0" →
        opts.to_entry = some 0) := by
  have hstep : ∀ (mm : Matches) (s : String) (n : Nat),
      mm.to_entry_opt = some s → parseRustNat s = some n →
      to_entry_step mm = .ok (some n) := by
    intro mm s n hte hp
    unfold to_entry_step
    simp [hte, hp]
  have h0 : parseRustNat "0" = some 0 := by decide
  refine ⟨fun mm hte => hstep mm "0" 0 hte h0, hstep, ?_, ?_⟩
  · intro mm s hte hp
    unfold to_entry_step
    simp [hte, hp]
  · intro opts h hte0
    obtain ⟨cf, ct, gf, hd, mr, ti, te, vars, _, _, _, _, _, _, hte, _, hopts⟩ :=
      parse_options_ok_inv pv pvv w m opts h
    subst hopts
    rw [hstep m "0" 0 hte0 h0] at hte
    injection hte with hte
    exact hte.symm

/-- An entry the glob loop can turn into a filename. -/
def goodEntry : GlobEntry → Bool
  | .entryPath _ => true
  | .entryNonUtf8 => false
  | .entryErr => false

/-- The filenames of the readable entries, in enumeration order. -/
def entryNames (es : List GlobEntry) : List String :=
  es.filterMap fun e =>
    match e with
    | .entryPath s => some s
    | .entryNonUtf8 => none
    | .entryErr => none

/-- A pattern that is valid and all of whose entries are readable. -/
def goodPattern (w : World) (p : String) : Bool :=
  match w.globFn p with
  | none => false
  | some es => es.all goodEntry

/-- The matches of one pattern, in filesystem enumeration order. -/
def patternNames (w : World) (p : String) : List String :=
  match w.globFn p with
  | none => []
  | some es => entryNames es

theorem entriesToNames_eq (es : List GlobEntry) :
    entriesToNames es =
      if es.all goodEntry then .ok (entryNames es)
      else .error ⟨"Failed to read glob pattern"⟩ := by
  induction es with
  | nil => simp [entriesToNames, entryNames]
  | cons e rest ih =>
    cases e with
    | entryErr => simp [entriesToNames, goodEntry, entryNames]
    | entryNonUtf8 => simp [entriesToNames, goodEntry, entryNames]
    | entryPath s =>
      simp only [entriesToNames, ih, entryNames, List.filterMap_cons,
        List.all_cons, goodEntry, Bool.true_and]
      by_cases hall : rest.all goodEntry
      · simp [hall, entryNames]
      · simp [hall]

theorem globFiles_eq (w : World) (l : List String) :
    globFiles w l =
      if l.all (goodPattern w) then .ok ((l.map (patternNames w)).flatten)
      else .error ⟨"Failed to read glob pattern"⟩ := by
  induction l with
  | nil => simp [globFiles]
  | cons expr rest ih =>
    simp only [globFiles, ih, List.all_cons, List.map_cons]
    cases hg : w.globFn expr with
    | none => simp [goodPattern, hg]
    | some es =>
      simp only [entriesToNames_eq]
      by_cases hall : es.all goodEntry
      · by_cases hrest : rest.all (goodPattern w)
        · simp [goodPattern, hg, hall, hrest, patternNames]
        · simp [goodPattern, hg, hall, hrest]
      · simp [goodPattern, hg, hall]

/-- C7: for every ordered list of glob patterns, a successful expansion is
the concatenation, in the order the patterns were supplied, of each
pattern's matches in filesystem enumeration order; if any pattern is
invalid or any entry encountered is unreadable, the expansion returns the
single glob-failure error (and hence no partial list). -/
theorem c7_glob_expansion (w : World) (m : Matches) :
    match_glob_files w m =
      if m.glob.all (goodPattern w) then
        .ok ((m.glob.map (patternNames w)).flatten)
      else .error ⟨"Failed to read glob pattern"⟩ :=
  globFiles_eq w m.glob

theorem html_trace_le_one (w : World) (r : Option String) :
    (html_dir_resolve w r).2.length ≤ 1 := by
  cases r with
  | none => simp [html_dir_resolve]
  | some dir =>
    by_cases hw : w.pathExists dir = true <;>
      by_cases hc : create_dir w dir = true <;>
      by_cases hd : w.isDir dir = true <;>
      simp_all [html_dir_resolve]

/-- C8: with an HTML report directory given: when the path does not exist a
single `create_dir` on that path is attempted — succeeding exactly when the
parent exists (one directory level) and failing resolution otherwise; an
existing directory is reused with no creation; an existing non-directory
fails with the "invalid directory" error with no creation; and a whole
`parse_options` run performs at most one creation attempt. -/
theorem c8_html_report_dir (w : World) (dir : String) :
    (w.pathExists dir = false → create_dir w dir = true →
        html_dir_resolve w (some dir) = (.ok (some dir), [dir])) ∧
    (w.pathExists dir = false → w.parentExists dir = false →
        html_dir_resolve w (some dir) =
          (.error ⟨"Html dir " ++ dir ++ " can not be created"⟩, [dir])) ∧
    (w.pathExists dir = true → w.isDir dir = true →
        html_dir_resolve w (some dir) = (.ok (some dir), [])) ∧
    (w.pathExists dir = true → w.isDir dir = false →
        html_dir_resolve w (some dir) =
          (.error ⟨dir ++ " is not a valid directory"⟩, [])) ∧
    (∀ m : Matches, (parse_options_effects w m).length ≤ 1) := by
  refine ⟨?_, ?_, ?_, ?_, ?_⟩
  · intro h1 h2; simp [html_dir_resolve, h1, h2]
  · intro h1 h2; simp [html_dir_resolve, create_dir, h1, h2]
  · intro h1 h2; simp [html_dir_resolve, h1, h2]
  · intro h1 h2; simp [html_dir_resolve, h1, h2]
  · intro m
    unfold parse_options_effects
    split
    · simp
    · split
      · simp
      · split
        · simp
        · exact html_trace_le_one w m.report_html

/-- C3: in every formatter invocation where the check modifier is present
and the pipeline reaches a successful parse, the run logs exactly one
diagnostic per lint finding and exits with code 1; in particular with zero
findings it logs nothing and still exits 1. -/
theorem c3_check_mode_always_exits_one {HF : Type} (w : FmtWorld HF)
    (m : FmtMatches) (contents : String) (hurl_file : HF)
    (hcheck : m.check = true)
    (hsa : (m.standalone && !(m.format == some "html")) = false)
    (htty : (filenameOf m == "-" && w.stdinTty) = false)
    (hex : (filenameOf m != "-" && !(w.fileExists (filenameOf m))) = false)
    (hip1 : (m.in_place && (filenameOf m == "-")) = false)
    (hip2 : (m.in_place && !((m.format.getD "text") == "text")) = false)
    (hread : (if filenameOf m == "-" then w.readStdin
              else w.readFile (filenameOf m)) = .ok contents)
    (hparse : w.parseHurl contents = .ok hurl_file) :
    fmt_run w m = ⟨1, true, w.lintErrors hurl_file, none⟩ ∧
    (w.lintErrors hurl_file = [] →
      (fmt_run w m).exit = 1 ∧ (fmt_run w m).linted = []) := by
  have h : fmt_run w m = ⟨1, true, w.lintErrors hurl_file, none⟩ := by
    unfold fmt_run
    simp only [hsa, htty, hex, hip1, hip2, hread, hparse, hcheck,
      Bool.false_eq_true, if_false, ite_false, if_true, ite_true]
  refine ⟨h, fun hl => ?_⟩
  rw [h, hl]
  exact ⟨rfl, rfl⟩

/-- C9: every formatter invocation with the in-place modifier whose input
is standard input (no filename or `"-"`), and every such invocation whose
render target is other than text, exits with code 1 without reading any
input contents. -/
theorem c9_in_place_rejected_early {HF : Type} (w : FmtWorld HF)
    (m : FmtMatches) (hip : m.in_place = true)
    (hcase : filenameOf m = "-" ∨ m.format.getD "text" ≠ "text") :
    (fmt_run w m).exit = 1 ∧ (fmt_run w m).readInput = false := by
  simp only [fmt_run]
  split
  · exact ⟨rfl, rfl⟩
  split
  · exact ⟨rfl, rfl⟩
  split
  · exact ⟨rfl, rfl⟩
  split
  · exact ⟨rfl, rfl⟩
  split
  · exact ⟨rfl, rfl⟩
  next h1 h2 h3 h4 h5 =>
    exfalso
    rcases hcase with hst | hfm
    · exact h4 (by simp [hip, hst])
    · exact h5 (by simp [hip, hfm])

theorem exOpts_ok :
    parse_options parse_variable parse_variable_value exWorld exMatches =
      .ok exOpts := rfl

/-- C6 (amended): blank lines and lines whose first non-whitespace character
is `#` are skipped; a nonexistent variables file yields a file-not-found
error naming the path; a line that cannot be *read* aborts with an error
naming the 1-based line number and the source path; a line that reads but
cannot be parsed as an assignment fails with the variable parser's own
error for that trimmed line, which receives neither line number nor path. -/
theorem c6_variables_file_error_rules
    (pv : String → Except CliError (String × Value)) (path : String)
    (rest : List LineRead) (i : Nat) (vm : VarMap) (s : String) :
    (filePhase pv path (.lineReadErr :: rest) i vm =
        .error ⟨"Can not parse line " ++ toString (i + 1) ++ " of " ++ path⟩) ∧
    ((startsWithHash (rustTrim s) || strIsEmpty (rustTrim s)) = true →
        filePhase pv path (.lineOk s :: rest) i vm =
          filePhase pv path rest (i + 1) vm) ∧
    (∀ e, (startsWithHash (rustTrim s) || strIsEmpty (rustTrim s)) = false →
        pv (rustTrim s) = .error e →
        filePhase pv path (.lineOk s :: rest) i vm = .error e) ∧
    (∀ (pvv : String → Except CliError Value) (w : World) (m : Matches)
        (filename : String) (m0 : VarMap),
        m.variables_file = some filename → w.pathExists filename = false →
        envPhase pvv w.envVars VarMap.empty = .ok m0 →
        hurl_variables pv pvv w m =
          .error ⟨"Properties file " ++ filename ++ " does not exist"⟩) := by
  refine ⟨rfl, ?_, ?_, ?_⟩
  · intro h
    simp [filePhase, h]
  · intro e h he
    simp [filePhase, h, he]
  · intro pvv w m filename m0 hvf hex henv
    simp [hurl_variables, henv, hvf, hex]

/-- C6 (counterexample): a variables file whose single line `noeq` cannot be
parsed as an assignment makes the merge fail with the variable parser's
error, whose message contains neither the source path `vars.txt` nor the
line number `1` — contradicting the claim that such a failure names the
1-based line number and the source path. -/
theorem c6_parse_failure_message_lacks_position :
    parse_variable (rustTrim "noeq") =
      .error ⟨"Missing variable value for noeq!"⟩ ∧
    hurl_variables parse_variable parse_variable_value c6World c6Matches =
      .error ⟨"Missing variable value for noeq!"⟩ ∧
    ¬ List.IsInfix "vars.txt".data "Missing variable value for noeq!".data ∧
    ¬ List.IsInfix "1".data "Missing variable value for noeq!".data := by
  refine ⟨rfl, rfl, by decide, by decide⟩

theorem c6_witness :
    (filePhase parse_variable "vars.txt" [.lineReadErr] 0 VarMap.empty =
        .error ⟨"Can not parse line 1 of vars.txt"⟩) ∧
    (filePhase parse_variable "vars.txt" [.lineOk "  # c"] 0 VarMap.empty =
        filePhase parse_variable "vars.txt" [] 1 VarMap.empty) ∧
    (filePhase parse_variable "vars.txt" [.lineOk "noeq"] 0 VarMap.empty =
        .error ⟨"Missing variable value for noeq!"⟩) ∧
    (hurl_variables parse_variable parse_variable_value c6MissingWorld
        c6Matches = .error ⟨"Properties file vars.txt does not exist"⟩) := by
  refine ⟨?_, ?_, ?_, ?_⟩
  · exact (c6_variables_file_error_rules parse_variable "vars.txt" []
      0 VarMap.empty "x").1
  · exact (c6_variables_file_error_rules parse_variable "vars.txt" []
      0 VarMap.empty "  # c").2.1 (by decide)
  · exact (c6_variables_file_error_rules parse_variable "vars.txt" []
      0 VarMap.empty "noeq").2.2.1 ⟨"Missing variable value for noeq!"⟩
      (by decide) rfl
  · exact (c6_variables_file_error_rules parse_variable "vars.txt" []
      0 VarMap.empty "x").2.2.2 parse_variable_value c6MissingWorld c6Matches
      "vars.txt" VarMap.empty rfl rfl rfl

theorem c1_witness :
    ∃ vm, hurl_variables parse_variable parse_variable_value exVarsWorld
        exVarsMatches = .ok vm ∧
      ∀ name, vm name =
        (lastOf [("a", Value.vnum 3)] name).orElse (fun _ =>
          (lastOf [("a", Value.vnum 2), ("b", Value.vnum 4)] name).orElse
            (fun _ => lastOf [("a", Value.vnum 1)] name)) :=
  c1_variable_merge_precedence parse_variable parse_variable_value exVarsWorld
    exVarsMatches [("a", Value.vnum 1)]
    [("a", Value.vnum 2), ("b", Value.vnum 4)] [("a", Value.vnum 3)]
    (by decide) (by decide) (by decide)

theorem c2_witness :
    exOpts.max_redirect =
      (match exMatches.max_redirects with
       | none => some 50
       | some s => if s = "-1" then none else parseRustNat s) ∧
    (∃ e, parse_options parse_variable parse_variable_value exWorld
        { exMatches with max_redirects := some "abc" } = .error e) ∧
    maxRedirectStep { exMatches with max_redirects := some "abc" } =
      .error ⟨"max_redirs option can not be parsed"⟩ := by
  refine ⟨?_, ?_, ?_⟩
  · exact (c2_max_redirect_rules parse_variable parse_variable_value exWorld
      exMatches).1 exOpts exOpts_ok
  · exact (c2_max_redirect_rules parse_variable parse_variable_value exWorld
      { exMatches with max_redirects := some "abc" }).2.1 "abc" rfl
      (by decide) (by decide)
  · exact (c2_max_redirect_rules parse_variable parse_variable_value exWorld
      exMatches).2.2 { exMatches with max_redirects := some "abc" } "abc" rfl
      (by decide) (by decide)

theorem c4_witness :
    (exOpts.no_proxy = exMatches.proxy ∧ exOpts.proxy = exMatches.proxy ∧
      exOpts.no_proxy = exOpts.proxy) ∧
    parse_options parse_variable parse_variable_value exWorld
        { exMatches with noproxy := some "other" } =
      parse_options parse_variable parse_variable_value exWorld exMatches := by
  refine ⟨?_, ?_⟩
  · exact (c4_no_proxy_coupling parse_variable parse_variable_value exWorld
      exMatches).1 exOpts exOpts_ok
  · exact (c4_no_proxy_coupling parse_variable parse_variable_value exWorld
      exMatches).2 (some "other")

theorem c5_witness :
    exOpts.output_type = OutputType.NoOutput ∧ exOpts.progress = true ∧
    exOpts.summary = true ∧ exOpts.verbose = true := by
  obtain ⟨h1, h2, h3⟩ := c5_output_mode_rules parse_variable
    parse_variable_value exWorld exMatches exOpts exOpts_ok
  exact ⟨h1, (h2 rfl).1, (h2 rfl).2, h3 rfl⟩

theorem c10_witness :
    to_entry_step exMatches = .ok (some 0) ∧ exOpts.to_entry = some 0 := by
  obtain ⟨h1, _, _, h4⟩ := c10_to_entry_zero_accepted parse_variable
    parse_variable_value exWorld exMatches
  exact ⟨h1 exMatches rfl, h4 exOpts exOpts_ok rfl⟩

theorem c8_witness :
    html_dir_resolve exWorld (some "report") =
      (.ok (some "report"), ["report"]) ∧
    html_dir_resolve c8WorldMissingParent (some "report") =
      (.error ⟨"Html dir report can not be created"⟩, ["report"]) ∧
    html_dir_resolve c8WorldExistingDir (some "report") =
      (.ok (some "report"), []) ∧
    html_dir_resolve c8WorldExistingFile (some "report") =
      (.error ⟨"report is not a valid directory"⟩, []) ∧
    (parse_options_effects exWorld exMatches).length ≤ 1 := by
  refine ⟨?_, ?_, ?_, ?_, ?_⟩
  · exact (c8_html_report_dir exWorld "report").1 rfl rfl
  · exact (c8_html_report_dir c8WorldMissingParent "report").2.1 rfl rfl
  · exact (c8_html_report_dir c8WorldExistingDir "report").2.2.1 rfl rfl
  · exact (c8_html_report_dir c8WorldExistingFile "report").2.2.2.1 rfl rfl
  · exact (c8_html_report_dir exWorld "report").2.2.2.2 exMatches

theorem c3_witness :
    fmt_run fmtWorldEx fmtMatchesCheck = ⟨1, true, [], none⟩ ∧
    (fmt_run fmtWorldEx fmtMatchesCheck).exit = 1 ∧
    (fmt_run fmtWorldEx fmtMatchesCheck).linted = [] := by
  obtain ⟨h1, h2⟩ := c3_check_mode_always_exits_one fmtWorldEx fmtMatchesCheck
    "GET http://x" () rfl rfl (by decide) (by decide) rfl rfl rfl rfl
  exact ⟨h1, (h2 rfl).1, (h2 rfl).2⟩

theorem c9_witness :
    (fmt_run fmtWorldEx fmtMatchesInPlace).exit = 1 ∧
    (fmt_run fmtWorldEx fmtMatchesInPlace).readInput = false :=
  c9_in_place_rejected_early fmtWorldEx fmtMatchesInPlace rfl (Or.inl rfl)
